import Mathlib

/-!
# Verification of the NutraFlex payment-webhook backend

Shallow embedding of `src/routes/webhook.py` (with `src/config.py` for the
configuration-level secret check).  Python/JSON values are modelled by `PyVal`,
Python exceptions by `Except String`, and the logger by an accumulated list of
log levels.  The Firebase-backed account operations are stubbed in the source
("SIMULAÇÃO" blocks that always succeed); where a claim depends on the real
directory-service behaviour, that behaviour is modelled from the spec in a
clearly marked section below.
-/

set_option linter.unusedVariables false

/-- Python / JSON values as they flow through the webhook handler.
Numbers are modelled as rationals (the only non-integer literal in the
source, `97.00`, is exactly representable). -/
inductive PyVal where
  | none
  | str (s : String)
  | num (q : Rat)
  | bool (b : Bool)
  | obj (fields : List (String × PyVal))
  | list (elems : List PyVal)

/-- Python truthiness: `None`, `""`, `0`, `False`, `{}`, `[]` are falsy. -/
def PyVal.truthy : PyVal → Bool
  | .none => false
  | .str s => !(s == "")
  | .num q => !(q == 0)
  | .bool b => b
  | .obj fields => !fields.isEmpty
  | .list elems => !elems.isEmpty

/-- Log levels of the `logging` calls made by the source (only the level is
modelled; messages are not needed by any claim). -/
inductive LogLevel where
  | info
  | warning
  | error
deriving DecidableEq

/-- Result of a Python computation: a value or an uncaught exception,
together with the log entries emitted along the executed path. -/
def PyM (α : Type) : Type := Except String α × List LogLevel

/-- Successful result, no logging. -/
def pret {α : Type} (a : α) : PyM α := (Except.ok a, [])

/-- Raise an exception (Python `raise`), no logging. -/
def praise {α : Type} (e : String) : PyM α := (Except.error e, [])

/-- Sequencing: logs accumulate along the executed path; an exception
aborts the rest of the computation (Python control flow). -/
def pbind {α β : Type} (x : PyM α) (f : α → PyM β) : PyM β :=
  match x with
  | (Except.ok a, l) => let y := f a; (y.1, l ++ y.2)
  | (Except.error e, l) => (Except.error e, l)

instance : Monad PyM where
  pure := pret
  bind := pbind

/-- A `try ... except Exception as e: ...` block. -/
def ptry {α : Type} (x : PyM α) (h : String → PyM α) : PyM α :=
  match x with
  | (Except.ok a, l) => (Except.ok a, l)
  | (Except.error e, l) => let y := h e; (y.1, l ++ y.2)

/-- Emit a log entry. -/
def plog (lv : LogLevel) : PyM Unit := (Except.ok (), [lv])

/-- Lift an exception-only computation (no logging) into `PyM`. -/
def liftE {α : Type} (x : Except String α) : PyM α := (x, [])

/-- Association-list lookup used to model Python `dict` access
(dict literals in the source never repeat keys). -/
def lookupField : List (String × PyVal) → String → Option PyVal
  | [], _ => Option.none
  | (k', v) :: rest, k => if k' == k then some v else lookupField rest k

/-- Python `d.get(key, default)`: raises `AttributeError` when the receiver
is not a dict. -/
def pyGet (v : PyVal) (k : String) (dflt : PyVal) : Except String PyVal :=
  match v with
  | .obj fields => Except.ok ((lookupField fields k).getD dflt)
  | _ => Except.error "AttributeError"

/-- Python `d[key]` indexing: `KeyError` when absent, `TypeError` on a
non-dict receiver. -/
def pyIndex (v : PyVal) (k : String) : Except String PyVal :=
  match v with
  | .obj fields =>
    match lookupField fields k with
    | some x => Except.ok x
    | Option.none => Except.error "KeyError"
  | _ => Except.error "TypeError"

/-- Update-or-append on an association list (Python `d[key] = value`). -/
def setField : List (String × PyVal) → String → PyVal → List (String × PyVal)
  | [], k, v => [(k, v)]
  | (k', v') :: rest, k, v =>
    if k' == k then (k, v) :: rest else (k', v') :: setField rest k v

/-- Python `d[key] = value`; raises `TypeError` on a non-dict receiver. -/
def pySet (v : PyVal) (k : String) (x : PyVal) : Except String PyVal :=
  match v with
  | .obj fields => Except.ok (.obj (setField fields k x))
  | _ => Except.error "TypeError"

/-- Python `a or b` with short-circuit semantics: returns the first operand
when truthy, otherwise evaluates and returns the second. -/
def pyOr (a : PyVal) (b : Except String PyVal) : Except String PyVal :=
  if a.truthy then Except.ok a else b

/-- Python `a and b` with short-circuit semantics: returns the first operand
when falsy, otherwise evaluates and returns the second. -/
def pyAnd (a : PyVal) (b : Except String PyVal) : Except String PyVal :=
  if a.truthy then b else Except.ok a

/-- Python `value == "literal"` as used in the handler's event-type
membership tests: a non-string value never equals a string. -/
def pyEqStr (v : PyVal) (s : String) : Bool :=
  match v with
  | .str t => t == s
  | _ => false

/-- Python `str(...)` as used inside the source's f-strings.  Only the cases
reached by the verified scenarios (strings, `None`, booleans, numbers) are
rendered; container rendering is never exercised by the theorems below. -/
def pyStr : PyVal → String
  | .none => "None"
  | .str s => s
  | .bool true => "True"
  | .bool false => "False"
  | .num q => toString q
  | .obj _ => "<dict>"
  | .list _ => "<list>"

/-! ## Signature Validator (webhook.py lines 91-110)

`hmac.new(secret, payload, hashlib.sha256).hexdigest()` is modelled by a full
executable SHA-256 / HMAC implementation over byte lists (`Nat` values below
256), with 32-bit words represented as `Nat` reduced modulo `2 ^ 32`. -/

/-- Reduce to a 32-bit word. -/
def w32 (n : Nat) : Nat := n % 4294967296

/-- 32-bit right rotation. -/
def rotr32 (n x : Nat) : Nat := w32 ((x >>> n) ||| (x <<< (32 - n)))

/-- SHA-256 big sigma-0. -/
def bigSigma0 (x : Nat) : Nat := (rotr32 2 x) ^^^ (rotr32 13 x) ^^^ (rotr32 22 x)

/-- SHA-256 big sigma-1. -/
def bigSigma1 (x : Nat) : Nat := (rotr32 6 x) ^^^ (rotr32 11 x) ^^^ (rotr32 25 x)

/-- SHA-256 small sigma-0. -/
def smallSigma0 (x : Nat) : Nat := (rotr32 7 x) ^^^ (rotr32 18 x) ^^^ (x >>> 3)

/-- SHA-256 small sigma-1. -/
def smallSigma1 (x : Nat) : Nat := (rotr32 17 x) ^^^ (rotr32 19 x) ^^^ (x >>> 10)

/-- SHA-256 round constants. -/
def sha256K : List Nat :=
  [1116352408, 1899447441, 3049323471, 3921009573, 961987163,
   1508970993, 2453635748, 2870763221, 3624381080, 310598401,
   607225278, 1426881987, 1925078388, 2162078206, 2614888103,
   3248222580, 3835390401, 4022224774, 264347078, 604807628,
   770255983, 1249150122, 1555081692, 1996064986, 2554220882,
   2821834349, 2952996808, 3210313671, 3336571891, 3584528711,
   113926993, 338241895, 666307205, 773529912, 1294757372,
   1396182291, 1695183700, 1986661051, 2177026350, 2456956037,
   2730485921, 2820302411, 3259730800, 3345764771, 3516065817,
   3600352804, 4094571909, 275423344, 430227734, 506948616,
   659060556, 883997877, 958139571, 1322822218, 1537002063,
   1747873779, 1955562222, 2024104815, 2227730452, 2361852424,
   2428436474, 2756734187, 3204031479, 3329325298]

/-- SHA-256 initial hash state. -/
def sha256H0 : List Nat :=
  [1779033703, 3144134277, 1013904242, 2773480762,
   1359893119, 2600822924, 528734635, 1541459225]

/-- Big-endian bytes to 32-bit words. -/
def bytesToWords32 : List Nat → List Nat
  | b0 :: b1 :: b2 :: b3 :: rest =>
    (b0 * 16777216 + b1 * 65536 + b2 * 256 + b3) :: bytesToWords32 rest
  | _ => []

/-- Extend the 16-word message schedule by `n` further words. -/
def extendSchedule (w : List Nat) : Nat → List Nat
  | 0 => w
  | n + 1 =>
    let m := w.length
    let nw := w32 ((w.getD (m - 16) 0) + smallSigma0 (w.getD (m - 15) 0) +
      (w.getD (m - 7) 0) + smallSigma1 (w.getD (m - 2) 0))
    extendSchedule (w ++ [nw]) n

/-- One SHA-256 round on the state `[a, b, c, d, e, f, g, h]`. -/
def sha256Round (st : List Nat) (kw : Nat × Nat) : List Nat :=
  let a := st.getD 0 0
  let b := st.getD 1 0
  let c := st.getD 2 0
  let d := st.getD 3 0
  let e := st.getD 4 0
  let f := st.getD 5 0
  let g := st.getD 6 0
  let h := st.getD 7 0
  let ch := (e &&& f) ^^^ ((4294967295 ^^^ e) &&& g)
  let maj := (a &&& b) ^^^ (a &&& c) ^^^ (b &&& c)
  let t1 := w32 (h + bigSigma1 e + ch + kw.1 + kw.2)
  let t2 := w32 (bigSigma0 a + maj)
  [w32 (t1 + t2), a, b, c, w32 (d + t1), e, f, g]

/-- Compress one 64-byte block into the running hash state. -/
def sha256Compress (h : List Nat) (block : List Nat) : List Nat :=
  let w := extendSchedule (bytesToWords32 block) 48
  let s := (sha256K.zip w).foldl sha256Round h
  (h.zip s).map (fun p => w32 (p.1 + p.2))

/-- 8-byte big-endian encoding of a length in bits. -/
def lenBE64 (n : Nat) : List Nat :=
  [(n >>> 56) % 256, (n >>> 48) % 256, (n >>> 40) % 256, (n >>> 32) % 256,
   (n >>> 24) % 256, (n >>> 16) % 256, (n >>> 8) % 256, n % 256]

/-- SHA-256 padding: one `0x80` byte, zeros, then the 64-bit bit length. -/
def sha256Pad (msg : List Nat) : List Nat :=
  msg ++ [128] ++ List.replicate ((119 - msg.length % 64) % 64) 0 ++
    lenBE64 (msg.length * 8)

/-- Split a byte list into 64-byte blocks. -/
def toBlocks (l : List Nat) : List (List Nat) :=
  if l.isEmpty then [] else l.take 64 :: toBlocks (l.drop 64)
termination_by l.length
decreasing_by
  simp only [List.length_drop]
  cases l with
  | nil => simp [List.isEmpty] at *
  | cons a t => simp only [List.length_cons]; omega

/-- 32-bit words to big-endian bytes. -/
def wordsToBytes (ws : List Nat) : List Nat :=
  ws.flatMap (fun w => [(w >>> 24) % 256, (w >>> 16) % 256, (w >>> 8) % 256, w % 256])

/-- SHA-256 of a byte list (result: 32 bytes). -/
def sha256 (msg : List Nat) : List Nat :=
  wordsToBytes ((toBlocks (sha256Pad msg)).foldl sha256Compress sha256H0)

/-- HMAC-SHA256 (RFC 2104) over byte lists. -/
def hmac_sha256 (key msg : List Nat) : List Nat :=
  let k0 := if key.length > 64 then sha256 key else key
  let k := k0 ++ List.replicate (64 - k0.length) 0
  let ipad := k.map (fun b => b ^^^ 54)
  let opad := k.map (fun b => b ^^^ 92)
  sha256 (opad ++ sha256 (ipad ++ msg))

/-- UTF-8 encoding of one character (Python `str.encode('utf-8')`). -/
def utf8Bytes (c : Char) : List Nat :=
  let n := c.toNat
  if n < 128 then [n]
  else if n < 2048 then [192 + (n >>> 6), 128 + (n % 64)]
  else if n < 65536 then [224 + (n >>> 12), 128 + ((n >>> 6) % 64), 128 + (n % 64)]
  else [240 + (n >>> 18), 128 + ((n >>> 12) % 64), 128 + ((n >>> 6) % 64), 128 + (n % 64)]

/-- UTF-8 bytes of a string. -/
def strToBytes (s : String) : List Nat := s.data.flatMap utf8Bytes

/-- Hex digits of a byte list (Python `hexdigest()`), lowercase. -/
def hexChars : List Nat → List Char
  | [] => []
  | b :: bs => Nat.digitChar ((b / 16) % 16) :: Nat.digitChar (b % 16) :: hexChars bs

/-- Lowercase hex string of a byte list. -/
def bytesToHex (bs : List Nat) : String := String.mk (hexChars bs)

/-- ASCII check: `hmac.compare_digest` on `str` arguments raises `TypeError`
when either argument contains a non-ASCII character. -/
def isAsciiStr (s : String) : Bool := s.data.all (fun c => c.toNat < 128)

/-- The hardcoded default secret from webhook.py line 16 (the fallback of
`os.environ.get('CAKTO_WEBHOOK_SECRET', ...)`). -/
def WEBHOOK_SECRET_DEFAULT : String := "nutraflex_webhook_secret_2025"

/-- webhook.py lines 91-110: `validate_webhook_signature(payload, signature)`.
The module-level `WEBHOOK_SECRET` is passed explicitly.  Fails on an empty
header signature; computes `"sha256=" + hexdigest(HMAC_SHA256(secret,
payload))` and compares with `hmac.compare_digest`; an exception inside the
`try` block (`compare_digest` on a non-ASCII header string) is caught,
logged as an error and turned into `False`. -/
def validate_webhook_signature (secret : String) (payload : List Nat)
    (signature : String) : Bool × List LogLevel :=
  if signature == "" then (false, [])
  else if isAsciiStr signature then
    ((("sha256=" ++ bytesToHex (hmac_sha256 (strToBytes secret) payload)) == signature), [])
  else (false, [LogLevel.error])

/-! ## Field Extractor (webhook.py lines 175-247)

`json.loads` (Python stdlib, an external collaborator) is abstracted as a
parameter `jl : String → Option PyVal`; `Option.none` models
`json.JSONDecodeError`.  All theorems below hold for every such loader. -/

/-- webhook.py lines 239-247: `extract_from_json(json_string, key)`.
Falsy input is skipped; a non-string truthy input makes `json.loads` raise
`TypeError` (caught); a decode failure is caught; but `parsed.get(key)` on a
non-dict parse result raises `AttributeError`, which is not in the `except`
clause and propagates. -/
def extract_from_json (jl : String → Option PyVal) (json_string : PyVal)
    (key : String) : Except String PyVal :=
  if json_string.truthy then
    match json_string with
    | .str s =>
      match jl s with
      | some parsed => pyGet parsed key PyVal.none
      | Option.none => Except.ok PyVal.none
    | _ => Except.ok PyVal.none
  else Except.ok PyVal.none

/-- webhook.py lines 175-185: `extract_customer_email(data)`. -/
def extract_customer_email (jl : String → Option PyVal) (data : PyVal) :
    Except String PyVal := do
  let c ← pyGet data "customer" (.obj [])
  let e1 ← pyGet c "email" .none
  pyOr e1 (do
  let e2 ← pyGet data "email" .none
  pyOr e2 (do
  let e3 ← pyGet data "buyer_email" .none
  pyOr e3 (do
  let e4 ← pyGet data "customer_email" .none
  pyOr e4 (do
  let e5 ← pyGet data "custom_field_2" .none
  pyOr e5 (do
  let m ← pyGet data "metadata" .none
  let t6 ← pyAnd m (extract_from_json jl m "email")
  pyOr t6 (do
  let u ← pyGet data "user_data" .none
  pyAnd u (extract_from_json jl u "email")))))))

/-- webhook.py lines 187-197: `extract_customer_name(data)`. -/
def extract_customer_name (jl : String → Option PyVal) (data : PyVal) :
    Except String PyVal := do
  let c ← pyGet data "customer" (.obj [])
  let e1 ← pyGet c "name" .none
  pyOr e1 (do
  let e2 ← pyGet data "name" .none
  pyOr e2 (do
  let e3 ← pyGet data "buyer_name" .none
  pyOr e3 (do
  let e4 ← pyGet data "customer_name" .none
  pyOr e4 (do
  let e5 ← pyGet data "custom_field_3" .none
  pyOr e5 (do
  let m ← pyGet data "metadata" .none
  let t6 ← pyAnd m (extract_from_json jl m "name")
  pyOr t6 (do
  let u ← pyGet data "user_data" .none
  pyAnd u (extract_from_json jl u "name")))))))

/-- webhook.py lines 199-211: `extract_registration_id(data)`. -/
def extract_registration_id (jl : String → Option PyVal) (data : PyVal) :
    Except String PyVal := do
  let e1 ← pyGet data "registration_id" .none
  pyOr e1 (do
  let e2 ← pyGet data "custom_field_1" .none
  pyOr e2 (do
  let e3 ← pyGet data "external_id" .none
  pyOr e3 (do
  let e4 ← pyGet data "reference" .none
  pyOr e4 (do
  let e5 ← pyGet data "order_id" .none
  pyOr e5 (do
  let cf ← pyGet data "custom_fields" (.obj [])
  let e6 ← pyGet cf "registration_id" .none
  pyOr e6 (do
  let m ← pyGet data "metadata" .none
  let t7 ← pyAnd m (extract_from_json jl m "registration_id")
  pyOr t7 (do
  let u ← pyGet data "user_data" .none
  let t8 ← pyAnd u (extract_from_json jl u "registration_id")
  pyOr t8 (do
  let c ← pyGet data "customer" (.obj [])
  pyGet c "registration_id" .none))))))))

/-- webhook.py lines 213-220: `extract_transaction_id(data)`. -/
def extract_transaction_id (data : PyVal) : Except String PyVal := do
  let e1 ← pyGet data "transaction_id" .none
  pyOr e1 (do
  let e2 ← pyGet data "id" .none
  pyOr e2 (do
  let e3 ← pyGet data "payment_id" .none
  pyOr e3 (pyGet data "order_id" .none)))

/-- webhook.py lines 222-229: `extract_amount(data)`. -/
def extract_amount (data : PyVal) : Except String PyVal := do
  let e1 ← pyGet data "amount" .none
  pyOr e1 (do
  let e2 ← pyGet data "value" .none
  pyOr e2 (do
  let e3 ← pyGet data "total" .none
  pyOr e3 (pyGet data "price" .none)))

/-- webhook.py lines 231-237: `extract_product_id(data)`. -/
def extract_product_id (data : PyVal) : Except String PyVal := do
  let e1 ← pyGet data "product_id" .none
  pyOr e1 (do
  let e2 ← pyGet data "product" .none
  pyOr e2 (pyGet data "item_id" .none))

/-! ## Reconciliation Engine, live code (webhook.py lines 249-296, 298-516,
788-814 / 1010-1135)

The account-creation helpers in the shipped source are simulation stubs:
each logs a "SIMULAÇÃO" message and returns a success dict.  They are
embedded exactly as shipped; the real directory-service behaviour is
modelled separately from the spec further below. -/

/-- Emit several log entries. -/
def plogMany (ls : List LogLevel) : PyM Unit := (Except.ok (), ls)

/-- webhook.py lines 298-311 (live part of
`create_account_from_pending_registration_by_id`): logs two infos and
returns a success dict; the Firebase implementation is commented out. -/
def create_account_from_pending_registration_by_id
    (registration_id customer_email customer_name transaction_id amount : PyVal) :
    PyM PyVal := do
  plogMany [.info, .info]
  pure (.obj [("success", .bool true),
    ("message", .str ("Conta criada para " ++ pyStr customer_email ++
      " usando registration_id " ++ pyStr registration_id))])

/-- webhook.py lines 450-463 (live part of
`create_account_from_pending_registration_by_email`). -/
def create_account_from_pending_registration_by_email
    (customer_email customer_name transaction_id amount : PyVal) : PyM PyVal := do
  plogMany [.info, .info]
  pure (.obj [("success", .bool true),
    ("message", .str ("Conta criada para " ++ pyStr customer_email ++
      " usando email como identificação"))])

/-- webhook.py lines 1010-1023 (live part of `create_basic_account`; the
later of the two Python definitions of this name wins). -/
def create_basic_account
    (customer_email customer_name transaction_id amount : PyVal) : PyM PyVal := do
  plogMany [.info, .info]
  pure (.obj [("success", .bool true),
    ("message", .str ("Conta básica criada para " ++ pyStr customer_email))])

/-- The fixed message returned by the strategy combinator when every
strategy failed (webhook.py line 288). -/
def strategy_generic_error : String :=
  "Não foi possível criar conta com nenhuma estratégia de identificação"

/-- webhook.py lines 249-296: `create_account_with_identification_strategy`.
Tries by-registration-id (only when `registration_id` is truthy), then
by-email, then basic-account creation, returning at the first success after
tagging it with `identification_method`; when everything fails it returns
`success = False` with the fixed `strategy_generic_error` message.  Any
exception is caught and becomes a failure dict. -/
def create_account_with_identification_strategy
    (customer_email registration_id customer_name transaction_id amount : PyVal) :
    PyM PyVal :=
  ptry (do
    if registration_id.truthy then
      plog .info
      let result ← create_account_from_pending_registration_by_id
        registration_id customer_email customer_name transaction_id amount
      let s ← liftE (pyIndex result "success")
      if s.truthy then
        return (← liftE (pySet result "identification_method" (.str "registration_id")))
      else
        plog .warning
    plog .info
    let result ← create_account_from_pending_registration_by_email
      customer_email customer_name transaction_id amount
    let s ← liftE (pyIndex result "success")
    if s.truthy then
      return (← liftE (pySet result "identification_method" (.str "email")))
    else
      plog .warning
    plog .info
    let result ← create_basic_account customer_email customer_name transaction_id amount
    let s ← liftE (pyIndex result "success")
    if s.truthy then
      return (← liftE (pySet result "identification_method" (.str "basic_account")))
    pure (.obj [("success", .bool false), ("error", .str strategy_generic_error)]))
  (fun e => do
    plog .error
    pure (.obj [("success", .bool false),
      ("error", .str ("Erro na estratégia de identificação: " ++ e))]))

/-- webhook.py lines 112-173: `handle_payment_approved(data)`. -/
def handle_payment_approved (jl : String → Option PyVal) (data : PyVal) :
    PyM PyVal :=
  ptry (do
    let customer_email ← liftE (extract_customer_email jl data)
    let customer_name ← liftE (extract_customer_name jl data)
    let transaction_id ← liftE (extract_transaction_id data)
    let amount ← liftE (extract_amount data)
    let product_id ← liftE (extract_product_id data)
    let registration_id ← liftE (extract_registration_id jl data)
    if !customer_email.truthy then
      plog .error
      return (.obj [("error", .str "Email do cliente não encontrado")])
    plogMany (List.replicate 7 .info)
    let firebase_result ← create_account_with_identification_strategy
      customer_email registration_id customer_name transaction_id amount
    let s ← liftE (pyIndex firebase_result "success")
    if s.truthy then
      plog .info
      let im ← liftE (pyGet firebase_result "identification_method" (.str "unknown"))
      pure (.obj [("success", .bool true),
        ("message", .str "Conta criada e acesso liberado com sucesso"),
        ("customer_email", customer_email),
        ("registration_id", registration_id),
        ("transaction_id", transaction_id),
        ("status", .str "active"),
        ("identification_method", im)])
    else
      plog .error
      let er ← liftE (pyGet firebase_result "error" .none)
      pure (.obj [("error", .str "Erro ao criar conta"), ("details", er)]))
  (fun e => do
    plog .error
    pure (.obj [("error", .str ("Erro ao processar pagamento: " ++ e))]))

/-- The three-source email chain inlined in `handle_payment_refused` /
`handle_payment_refunded` (webhook.py lines 523-527 and 569-573):
`data.get('customer', {}).get('email') or data.get('email') or
data.get('buyer_email')`. -/
def basic_email_chain (data : PyVal) : Except String PyVal := do
  let c ← pyGet data "customer" (.obj [])
  let e1 ← pyGet c "email" .none
  pyOr e1 (do
  let e2 ← pyGet data "email" .none
  pyOr e2 (pyGet data "buyer_email" .none))

/-- The three-source transaction-id chain inlined in the refused/refunded
handlers (webhook.py lines 529-533 and 575-579). -/
def basic_tx_chain (data : PyVal) : Except String PyVal := do
  let t1 ← pyGet data "transaction_id" .none
  pyOr t1 (do
  let t2 ← pyGet data "id" .none
  pyOr t2 (pyGet data "payment_id" .none))

/-- webhook.py lines 816-940 (live part of `update_user_access_firebase`):
logs and returns a success dict; the Firebase implementation is commented
out. -/
def update_user_access_firebase
    (customer_email customer_name transaction_id status amount : PyVal) :
    PyM PyVal := do
  plogMany (List.replicate 7 .info)
  pure (.obj [("success", .bool true),
    ("message", .str ("Usuário " ++ pyStr customer_email ++
      " atualizado para status " ++ pyStr status))])

/-- webhook.py lines 518-562: `handle_payment_refused(data)`. -/
def handle_payment_refused (data : PyVal) : PyM PyVal :=
  ptry (do
    let customer_email ← liftE (basic_email_chain data)
    let transaction_id ← liftE (basic_tx_chain data)
    let dflt ← liftE (pyGet data "decline_reason" (.str "Não especificado"))
    let reason ← liftE (pyGet data "reason" dflt)
    plogMany (List.replicate 4 .info)
    if customer_email.truthy then
      let _ ← update_user_access_firebase customer_email .none transaction_id
        (.str "payment_failed") .none
    pure (.obj [("success", .bool true),
      ("message", .str "Pagamento recusado registrado"),
      ("customer_email", customer_email),
      ("transaction_id", transaction_id),
      ("reason", reason)]))
  (fun e => do
    plog .error
    pure (.obj [("error", .str ("Erro ao processar pagamento recusado: " ++ e))]))

/-- webhook.py lines 564-617: `handle_payment_refunded(data)`. -/
def handle_payment_refunded (data : PyVal) : PyM PyVal :=
  ptry (do
    let customer_email ← liftE (basic_email_chain data)
    let transaction_id ← liftE (basic_tx_chain data)
    let r1 ← liftE (pyGet data "refund_amount" .none)
    let refund_amount ← liftE (pyOr r1 (do
      let r2 ← pyGet data "amount" .none
      pyOr r2 (pyGet data "value" .none)))
    plogMany (List.replicate 4 .info)
    let firebase_result ← update_user_access_firebase customer_email .none
      transaction_id (.str "refunded") refund_amount
    let s ← liftE (pyIndex firebase_result "success")
    if s.truthy then
      plog .info
      pure (.obj [("success", .bool true),
        ("message", .str "Acesso revogado devido ao reembolso"),
        ("customer_email", customer_email),
        ("transaction_id", transaction_id)])
    else
      let er ← liftE (pyGet firebase_result "error" .none)
      pure (.obj [("error", .str "Erro ao revogar acesso"), ("details", er)]))
  (fun e => do
    plog .error
    pure (.obj [("error", .str ("Erro ao processar reembolso: " ++ e))]))

/-! ## Event Classifier and webhook HTTP handler (webhook.py lines 21-89) -/

/-- The Approved alias set (webhook.py line 69). -/
def approved_events : List String :=
  ["payment.approved", "payment_approved", "approved", "completed"]

/-- The Refused alias set (webhook.py line 71). -/
def refused_events : List String :=
  ["payment.refused", "payment_refused", "refused", "failed"]

/-- The Refunded alias set (webhook.py line 73). -/
def refunded_events : List String :=
  ["payment.refunded", "payment_refunded", "refunded"]

/-- Outcome of the event-type dispatch chain. -/
inductive EventClass where
  | approved
  | refused
  | refunded
  | unknown
deriving DecidableEq

/-- The ordered `event_type in [...]` membership tests of webhook.py
lines 69-75. -/
def classify_event (event_type : PyVal) : EventClass :=
  if approved_events.any (pyEqStr event_type) then .approved
  else if refused_events.any (pyEqStr event_type) then .refused
  else if refunded_events.any (pyEqStr event_type) then .refunded
  else .unknown

/-- The unknown-event customer-data check of webhook.py line 78:
`data.get('customer', {}).get('email') or data.get('email')`. -/
def unknown_event_email_check (data : PyVal) : Except String PyVal := do
  let c ← pyGet data "customer" (.obj [])
  let e1 ← pyGet c "email" .none
  pyOr e1 (pyGet data "email" .none)

/-- An HTTP response as produced by `jsonify(body), status`. -/
structure HttpResponse where
  status : Nat
  body : PyVal

/-- webhook.py lines 63-85: event-type resolution (with the
`'payment.approved'` default), `data` resolution, dispatch to the three
outcome handlers and the unknown-event fallback, each wrapped in a
200 response. -/
def webhook_dispatch (jl : String → Option PyVal) (webhook_data : PyVal) :
    PyM HttpResponse := do
  let t ← liftE (pyGet webhook_data "type" (.str "payment.approved"))
  let event_type ← liftE (pyGet webhook_data "event" t)
  let data ← liftE (pyGet webhook_data "data" webhook_data)
  plog .info
  match classify_event event_type with
  | .approved =>
    let result ← handle_payment_approved jl data
    plog .info
    pure ⟨200, result⟩
  | .refused =>
    let result ← handle_payment_refused data
    plog .info
    pure ⟨200, result⟩
  | .refunded =>
    let result ← handle_payment_refunded data
    plog .info
    pure ⟨200, result⟩
  | .unknown =>
    plog .info
    let chk ← liftE (unknown_event_email_check data)
    if chk.truthy then
      plog .info
      let result ← handle_payment_approved jl data
      plog .info
      pure ⟨200, result⟩
    else
      pure ⟨200, .obj [("message", .str "Evento não tratado"), ("event", event_type)]⟩

/-- Outcome of `json.loads(payload.decode('utf-8'))` on the raw body:
parsed value, `json.JSONDecodeError` (caught, 400), or another exception
such as `UnicodeDecodeError` (uncaught, reaches the 500 boundary). -/
inductive ParseResult where
  | ok (v : PyVal)
  | jsonError
  | otherError (msg : String)

/-- webhook.py lines 21-89: `handle_cakto_webhook`.  The module-level
`WEBHOOK_SECRET` is passed explicitly; signature validation runs only when
the secret differs from the hardcoded default (line 48); JSON decode
failure yields 400; every dispatch result is returned with status 200; any
uncaught exception is converted to a 500 response at the boundary. -/
def handle_cakto_webhook (secret : String) (payload : List Nat)
    (signature : String) (parse : List Nat → ParseResult)
    (jl : String → Option PyVal) : HttpResponse × List LogLevel :=
  let core : PyM HttpResponse := do
    plogMany [.info, .info, .info]
    if secret ≠ WEBHOOK_SECRET_DEFAULT then
      let v := validate_webhook_signature secret payload signature
      plogMany v.2
      if !v.1 then
        plog .warning
        return ⟨401, .obj [("error", .str "Assinatura inválida")]⟩
    match parse payload with
    | .jsonError =>
      plog .error
      pure ⟨400, .obj [("error", .str "JSON inválido")]⟩
    | .otherError e => praise e
    | .ok webhook_data =>
      plog .info
      webhook_dispatch jl webhook_data
  match core with
  | (Except.ok r, l) => (r, l)
  | (Except.error e, l) =>
    (⟨500, .obj [("error", .str "Erro interno do servidor"), ("details", .str e)]⟩,
      l ++ [.error])

/-- The fabricated Approved payload built by `/simulate-payment`
(webhook.py lines 987-995); `ts` is the `datetime.now()` timestamp string. -/
def sim_payment_data (customer_email customer_name : PyVal) (ts : String) : PyVal :=
  .obj [("customer", .obj [("email", customer_email), ("name", customer_name)]),
        ("transaction_id", .str ("TEST_" ++ ts)),
        ("amount", .num 97),
        ("product_id", .str "nutraflex_full_access")]

/-- webhook.py lines 976-1006: `simulate_payment`.  `reqData` is the parsed
request JSON; exceptions become a 500 response with the exception text. -/
def simulate_payment (jl : String → Option PyVal) (reqData : PyVal) (ts : String) :
    HttpResponse × List LogLevel :=
  let core : PyM HttpResponse := do
    let customer_email ← liftE (pyGet reqData "email" (.str "teste@nutraflex.com"))
    let customer_name ← liftE (pyGet reqData "name" (.str "Usuário Teste"))
    let payment_data := sim_payment_data customer_email customer_name ts
    let result ← handle_payment_approved jl payment_data
    pure ⟨200, .obj [("message", .str "Pagamento simulado"),
      ("result", result), ("test_data", payment_data)]⟩
  match core with
  | (Except.ok r, l) => (r, l)
  | (Except.error e, l) => (⟨500, .obj [("error", .str e)]⟩, l)

/-- config.py `Config.validate_webhook_secret`: returns `False` and prints
a warning exactly when the configured secret is the hardcoded default
(this check runs at startup or on the dev-only `/config/check` endpoint,
not per webhook request). -/
def config_validate_webhook_secret (secret : String) : Bool × List LogLevel :=
  if secret == WEBHOOK_SECRET_DEFAULT then (false, [.warning]) else (true, [])

/-- The reconciliation result embedded in `handle_payment_approved`
(webhook.py lines 119-151): field extraction in source order, the
missing-email early error, else the strategy combinator's result.  Used to
compare the `/simulate-payment` pipeline with the real webhook pipeline in
the refinement claim. -/
def reconcile_approved_result (jl : String → Option PyVal) (data : PyVal) :
    PyM PyVal := do
  let customer_email ← liftE (extract_customer_email jl data)
  let customer_name ← liftE (extract_customer_name jl data)
  let transaction_id ← liftE (extract_transaction_id data)
  let amount ← liftE (extract_amount data)
  let product_id ← liftE (extract_product_id data)
  let registration_id ← liftE (extract_registration_id jl data)
  if !customer_email.truthy then
    pure (.obj [("error", .str "Email do cliente não encontrado")])
  else
    create_account_with_identification_strategy
      customer_email registration_id customer_name transaction_id amount

/-- The control flow of `create_account_with_identification_strategy`
(webhook.py lines 256-289) abstracted over the values returned by the three
strategy calls (their outcomes depend on the directory service): strategy 1
is consulted only when `registration_id` is truthy; the first result whose
`success` entry is truthy is returned tagged with its `identification_method`;
when all consulted strategies fail, the fixed `strategy_generic_error`
failure dict is returned.  `Except` carries the `KeyError` of the
`result['success']` lookups, caught at line 291 of the source. -/
def strategy_core (registration_id r1 r2 r3 : PyVal) : Except String PyVal := do
  if registration_id.truthy then
    let s ← pyIndex r1 "success"
    if s.truthy then
      return (← pySet r1 "identification_method" (.str "registration_id"))
  let s2 ← pyIndex r2 "success"
  if s2.truthy then
    return (← pySet r2 "identification_method" (.str "email"))
  let s3 ← pyIndex r3 "success"
  if s3.truthy then
    return (← pySet r3 "identification_method" (.str "basic_account"))
  pure (.obj [("success", .bool false), ("error", .str strategy_generic_error)])

/-! ## Directory-service model (spec §3, §4.4)

The production Firebase-backed bodies of the three reconciliation
strategies and of the refund update are not present as executable code in
the repository: the shipped functions are simulation stubs, and the real
bodies exist only inside commented-out string blocks.  The definitions in
this section model that missing behaviour from the spec, over an explicit
directory-service state. -/

/-- Modelled from the spec: a `pending_registrations/{id}` document
(spec §3 PendingRegistration; profile fields not needed by the claims
are omitted). -/
structure PendingRegistration where
  id : String
  email : String
  name : String
  password : String
  createdAt : Nat
  expiresAt : Nat

/-- Modelled from the spec: a `users/{uid}` document (spec §3 UserAccount;
claims touch only the access fields). -/
structure UserAccount where
  uid : String
  email : String
  name : String
  accessStatus : String
  hasFullAccess : Bool
  isActive : Bool
  onboardingCompleted : Bool

/-- Modelled from the spec: an identity-provider account. -/
structure AuthIdentity where
  uid : String
  email : String
  disabled : Bool

/-- Modelled from the spec: a per-user ProgressRecord document. -/
structure ProgressRecord where
  uid : String
  level : Nat
  totalScore : Nat

/-- Modelled from the spec: the directory-service state seen by the
Reconciliation Engine, plus the current time and a counter for generated
identity identifiers. -/
structure FSState where
  now : Nat
  pending : List PendingRegistration
  users : List UserAccount
  identities : List AuthIdentity
  progress : List ProgressRecord
  nextUid : Nat

/-- A reconciliation-step result (spec §4.4 contract
`{success, method, error}`). -/
structure StratResult where
  success : Bool
  method : Option String := Option.none
  error : Option String := Option.none

/-- Modelled from the spec: create the identity-provider account for an
email, or fetch the existing one (`auth.create_user` /
`EmailAlreadyExistsError` fallback in the commented-out source). -/
def fs_ensure_identity (email : String) (st : FSState) : String × FSState :=
  match st.identities.find? (fun i => i.email == email) with
  | some i => (i.uid, st)
  | Option.none =>
    let uid := "uid" ++ toString st.nextUid
    (uid, { st with identities := st.identities ++ [⟨uid, email, false⟩],
                    nextUid := st.nextUid + 1 })

/-- Modelled from the spec: successful activation of a pending
registration — create or fetch the identity, persist the UserAccount
(full profile, onboarding completed) and a ProgressRecord, delete the
pending record. -/
def fs_activate_pending (r : PendingRegistration) (st : FSState) :
    String × FSState :=
  let p := fs_ensure_identity r.email st
  let acct : UserAccount := ⟨p.1, r.email, r.name, "active", true, true, true⟩
  (p.1, { p.2 with
    users := (p.2.users.filter (fun u => !(u.email == r.email))) ++ [acct],
    progress := p.2.progress ++ [⟨p.1, 1, 0⟩],
    pending := p.2.pending.filter (fun q => !(q.id == r.id)) })

/-- Modelled from the spec (§4.4 step 1; commented-out implementation at
webhook.py lines 325-440): look up the pending registration by identifier;
a missing record fails; a stored email differing from the extracted
customer email is a hard failure for this branch; an expired record is
deleted and fails; otherwise activate. -/
def fs_create_account_by_id (registration_id customer_email : String)
    (st : FSState) : StratResult × FSState :=
  match st.pending.find? (fun p => p.id == registration_id) with
  | Option.none =>
    ({ success := false,
       error := some "Registro pendente não encontrado" }, st)
  | some r =>
    if r.email ≠ customer_email then
      ({ success := false,
         error := some "Email não confere com o registro pendente" }, st)
    else if r.expiresAt < st.now then
      ({ success := false, error := some "Registro pendente expirado" },
       { st with pending := st.pending.filter (fun p => !(p.id == registration_id)) })
    else
      let p := fs_activate_pending r st
      ({ success := true }, p.2)

/-- Modelled from the spec (§4.4 step 2; commented-out implementation at
webhook.py lines 477-508): query pending registrations by email, keep the
non-expired ones, pick the most recently created; none fails, otherwise
activate. -/
def fs_create_account_by_email (customer_email : String) (st : FSState) :
    StratResult × FSState :=
  let cands := st.pending.filter
    (fun p => p.email == customer_email && st.now < p.expiresAt)
  match cands.foldl (fun acc p =>
      match acc with
      | Option.none => some p
      | some q => if q.createdAt < p.createdAt then some p else some q)
      Option.none with
  | Option.none =>
    ({ success := false,
       error := some "Nenhum registro pendente encontrado" }, st)
  | some r =>
    let p := fs_activate_pending r st
    ({ success := true }, p.2)

/-- Modelled from the spec (§4.4 step 3; commented-out implementation at
webhook.py lines 1026-1128): if an identity already exists for the email,
merge-update its UserAccount to active / full access without touching
profile fields; otherwise create a fresh identity with a generated
password and a minimal UserAccount with `onboardingCompleted = false`,
plus a ProgressRecord. -/
def fs_create_basic_account (customer_email customer_name : String)
    (st : FSState) : StratResult × FSState :=
  match st.identities.find? (fun i => i.email == customer_email) with
  | some _ =>
    ({ success := true },
     { st with users := st.users.map (fun u =>
         if u.email == customer_email then
           { u with accessStatus := "active", hasFullAccess := true, isActive := true }
         else u) })
  | Option.none =>
    let uid := "uid" ++ toString st.nextUid
    let acct : UserAccount :=
      ⟨uid, customer_email, customer_name, "active", true, true, false⟩
    ({ success := true },
     { st with identities := st.identities ++ [⟨uid, customer_email, false⟩],
               users := st.users ++ [acct],
               progress := st.progress ++ [⟨uid, 1, 0⟩],
               nextUid := st.nextUid + 1 })

/-- Modelled from the spec: steps 2 and 3 of the ordered fallback
(the tail of webhook.py lines 268-289 over the directory-service model). -/
def fs_strategy_after_id (customer_email customer_name : String)
    (st : FSState) : StratResult × FSState :=
  let p2 := fs_create_account_by_email customer_email st
  if p2.1.success then ({ p2.1 with method := some "email" }, p2.2)
  else
    let p3 := fs_create_basic_account customer_email customer_name p2.2
    if p3.1.success then ({ p3.1 with method := some "basic_account" }, p3.2)
    else ({ success := false, error := some strategy_generic_error }, p3.2)

/-- Modelled from the spec: the full ordered fallback of §4.4 over the
directory-service model, with the control flow of webhook.py lines
256-289 — by-id only when an identifier was extracted, then by-email,
then basic account, stopping at the first success. -/
def fs_identification_strategy (customer_email : String)
    (registration_id : Option String) (customer_name : String)
    (st : FSState) : StratResult × FSState :=
  match registration_id with
  | some rid =>
    let p1 := fs_create_account_by_id rid customer_email st
    if p1.1.success then ({ p1.1 with method := some "registration_id" }, p1.2)
    else fs_strategy_after_id customer_email customer_name p1.2
  | Option.none => fs_strategy_after_id customer_email customer_name st

/-- Modelled from the spec (§4.4 Refunded; commented-out implementation at
webhook.py lines 864-930): look up the identity by email; if found,
disable it in the provider and update the UserAccount document
(`accessStatus` refunded, `hasFullAccess` false, `isActive` false); if
not found, report a failure result (`Usuário não encontrado`). -/
def fs_update_user_access_refunded (customer_email : String) (st : FSState) :
    StratResult × FSState :=
  match st.identities.find? (fun i => i.email == customer_email) with
  | some _ =>
    ({ success := true },
     { st with
        identities := st.identities.map (fun j =>
          if j.email == customer_email then { j with disabled := true } else j),
        users := st.users.map (fun u =>
          if u.email == customer_email then
            { u with accessStatus := "refunded", hasFullAccess := false,
                     isActive := false }
          else u) })
  | Option.none =>
    ({ success := false, error := some "Usuário não encontrado" }, st)

/-- Modelled from the spec: `handle_payment_refunded` (webhook.py lines
564-617) composed with the modelled refund update in place of the
simulation stub.  The response dict mirrors the live handler exactly. -/
def fs_handle_payment_refunded (data : PyVal) (st : FSState) :
    PyVal × FSState :=
  let comp : Except String (PyVal × FSState) := do
    let customer_email ← basic_email_chain data
    let transaction_id ← basic_tx_chain data
    let r1 ← pyGet data "refund_amount" .none
    let _refund_amount ← pyOr r1 (do
      let r2 ← pyGet data "amount" .none
      pyOr r2 (pyGet data "value" .none))
    let p := fs_update_user_access_refunded (pyStr customer_email) st
    if p.1.success then
      Except.ok ((.obj [("success", .bool true),
        ("message", .str "Acesso revogado devido ao reembolso"),
        ("customer_email", customer_email),
        ("transaction_id", transaction_id)]), p.2)
    else
      Except.ok ((.obj [("error", .str "Erro ao revogar acesso"),
        ("details", ((p.1.error.map PyVal.str).getD .none))]), p.2)
  match comp with
  | Except.ok r => r
  | Except.error e =>
    ((.obj [("error", .str ("Erro ao processar reembolso: " ++ e))]), st)

/-- Witness store: one valid pending registration R1 for a@x.com. -/
def sample_pending : PendingRegistration :=
  ⟨"R1", "a@x.com", "N", "pw", 0, 100⟩

/-- Witness directory-service state holding only `sample_pending`. -/
def sample_state : FSState :=
  ⟨0, [sample_pending], [], [], [], 0⟩

/-- Witness directory-service state with no identities at all. -/
def sample_refund_state : FSState := ⟨0, [], [], [], [], 0⟩

/-! ## Theorems -/
theorem bind_is_pbind {α β : Type} (x : PyM α) (f : α → PyM β) :
    (x >>= f) = pbind x f := rfl

theorem pure_is_pret {α : Type} (a : α) : (pure a : PyM α) = (Except.ok a, []) := rfl

@[simp] theorem truthy_none : PyVal.none.truthy = false := rfl

@[simp] theorem truthy_bool (b : Bool) : (PyVal.bool b).truthy = b := rfl

@[simp] theorem truthy_str (s : String) : (PyVal.str s).truthy = !(s == "") := rfl

@[simp] theorem truthy_obj (fs : List (String × PyVal)) :
    (PyVal.obj fs).truthy = !fs.isEmpty := rfl

theorem strategy_live_run (e r n t a : PyVal) :
  create_account_with_identification_strategy e r n t a =
    (Except.ok (.obj [("success", .bool true),
      ("message", .str (if r.truthy then
          "Conta criada para " ++ pyStr e ++ " usando registration_id " ++ pyStr r
        else "Conta criada para " ++ pyStr e ++ " usando email como identificação")),
      ("identification_method", .str (if r.truthy then "registration_id" else "email"))]),
     [.info, .info, .info]) := by
  cases hr : r.truthy <;>
    simp [create_account_with_identification_strategy, ptry, hr, bind_is_pbind, pbind,
      liftE, plog, plogMany, pyIndex, pySet, lookupField, setField,
      create_account_from_pending_registration_by_id,
      create_account_from_pending_registration_by_email, pure_is_pret]

theorem handle_payment_approved_run (jl : String → Option PyVal) (data : PyVal) :
  handle_payment_approved jl data =
    match extract_customer_email jl data with
    | Except.error e =>
      (Except.ok (.obj [("error", .str ("Erro ao processar pagamento: " ++ e))]), [.error])
    | Except.ok em =>
      match extract_customer_name jl data with
      | Except.error e =>
        (Except.ok (.obj [("error", .str ("Erro ao processar pagamento: " ++ e))]), [.error])
      | Except.ok nm =>
        match extract_transaction_id data with
        | Except.error e =>
          (Except.ok (.obj [("error", .str ("Erro ao processar pagamento: " ++ e))]), [.error])
        | Except.ok tx =>
          match extract_amount data with
          | Except.error e =>
            (Except.ok (.obj [("error", .str ("Erro ao processar pagamento: " ++ e))]), [.error])
          | Except.ok am =>
            match extract_product_id data with
            | Except.error e =>
              (Except.ok (.obj [("error", .str ("Erro ao processar pagamento: " ++ e))]), [.error])
            | Except.ok pid =>
              match extract_registration_id jl data with
              | Except.error e =>
                (Except.ok (.obj [("error", .str ("Erro ao processar pagamento: " ++ e))]), [.error])
              | Except.ok rid =>
                if em.truthy then
                  (Except.ok (.obj [("success", .bool true),
                    ("message", .str "Conta criada e acesso liberado com sucesso"),
                    ("customer_email", em),
                    ("registration_id", rid),
                    ("transaction_id", tx),
                    ("status", .str "active"),
                    ("identification_method",
                      .str (if rid.truthy then "registration_id" else "email"))]),
                   List.replicate 11 LogLevel.info)
                else
                  (Except.ok (.obj [("error", .str "Email do cliente não encontrado")]),
                   [.error]) := by
  cases h1 : extract_customer_email jl data <;>
    cases h2 : extract_customer_name jl data <;>
      cases h3 : extract_transaction_id data <;>
        cases h4 : extract_amount data <;>
          cases h5 : extract_product_id data <;>
            cases h6 : extract_registration_id jl data <;>
  · simp only [handle_payment_approved, ptry, bind_is_pbind, pbind, liftE, h1, h2, h3, h4,
      h5, h6, plog, plogMany, pure_is_pret, strategy_live_run]
    first
    | rfl
    | (rename_i em _ _ _ _ rid
       cases hem : em.truthy <;>
         simp only [hem, Bool.not_true, Bool.not_false, if_true, if_false, ite_true,
           ite_false, cond_true, cond_false, pyIndex, pySet, lookupField, setField,
           truthy_bool, pure_is_pret, pbind, plog, plogMany, pyGet]
       · rfl
       · cases hrid : rid.truthy <;> simp [hrid])

theorem digitChar_ascii (n : Nat) : (Nat.digitChar (n % 16)).toNat < 128 := by
  have h : n % 16 < 16 := Nat.mod_lt _ (by norm_num)
  generalize hm : n % 16 = m at h
  interval_cases m <;> decide

theorem hexChars_ascii (bs : List Nat) : ∀ c ∈ hexChars bs, c.toNat < 128 := by
  induction bs with
  | nil => intro c hc; simp [hexChars] at hc
  | cons b t ih =>
    intro c hc
    simp only [hexChars, List.mem_cons] at hc
    rcases hc with h | h | h
    · subst h; exact digitChar_ascii (b / 16)
    · subst h; exact digitChar_ascii b
    · exact ih c h

theorem expected_sig_ne_empty (t : String) : ("sha256=" ++ t) ≠ "" := by
  intro h
  have h2 : "sha256=".data ++ t.data = [] := congrArg String.data h
  exact absurd (List.append_eq_nil.mp h2).1 (by decide)

theorem expected_sig_ascii (bs : List Nat) :
    isAsciiStr ("sha256=" ++ bytesToHex bs) = true := by
  simp only [isAsciiStr, bytesToHex, List.all_eq_true]
  intro c hc
  have hdata : ("sha256=" ++ String.mk (hexChars bs)).data
      = "sha256=".data ++ hexChars bs := by
    rfl
  rw [hdata] at hc
  rcases List.mem_append.mp hc with h | h
  · fin_cases h <;> decide
  · exact decide_eq_true (hexChars_ascii bs c h)

theorem validate_accepts_correct_signature (secret : String) (payload : List Nat) :
    (validate_webhook_signature secret payload
      ("sha256=" ++ bytesToHex (hmac_sha256 (strToBytes secret) payload))).1 = true := by
  unfold validate_webhook_signature
  rw [if_neg, if_pos]
  · simp
  · exact expected_sig_ascii _
  · simp only [beq_iff_eq]
    exact expected_sig_ne_empty _

theorem validate_rejects_empty_signature (secret : String) (payload : List Nat) :
    validate_webhook_signature secret payload "" = (false, []) := rfl

theorem any_pyEqStr_iff (s : String) (l : List String) :
    (l.any (pyEqStr (.str s)) = true) ↔ s ∈ l := by
  induction l with
  | nil => simp
  | cons a t ih =>
    simp [List.any_cons, List.mem_cons, ih, pyEqStr]

/-- C4 (amended): event classification is an exact, case-sensitive
membership test of the three alias lists of webhook.py lines 69-74, which
contain the dotted and underscored forms but not "purchase_approved";
strings in none of the lists classify as unknown. -/
theorem classify_event_spec (s : String) :
    (s ∈ approved_events → classify_event (.str s) = .approved)
  ∧ (s ∈ refused_events → classify_event (.str s) = .refused)
  ∧ (s ∈ refunded_events → classify_event (.str s) = .refunded)
  ∧ (s ∉ approved_events → s ∉ refused_events → s ∉ refunded_events →
      classify_event (.str s) = .unknown) := by
  refine ⟨?_, ?_, ?_, ?_⟩
  · intro h
    simp only [approved_events, List.mem_cons, List.not_mem_nil, or_false] at h
    rcases h with rfl | rfl | rfl | rfl <;> rfl
  · intro h
    simp only [refused_events, List.mem_cons, List.not_mem_nil, or_false] at h
    rcases h with rfl | rfl | rfl | rfl <;> rfl
  · intro h
    simp only [refunded_events, List.mem_cons, List.not_mem_nil, or_false] at h
    rcases h with rfl | rfl | rfl <;> rfl
  · intro h1 h2 h3
    unfold classify_event
    rw [if_neg (fun hc => h1 ((any_pyEqStr_iff s _).mp hc)),
        if_neg (fun hc => h2 ((any_pyEqStr_iff s _).mp hc)),
        if_neg (fun hc => h3 ((any_pyEqStr_iff s _).mp hc))]

theorem handle_payment_approved_noWarn (jl : String → Option PyVal) (data : PyVal) :
    LogLevel.warning ∉ (handle_payment_approved jl data).2 := by
  rw [handle_payment_approved_run]
  repeat' split
  all_goals simp [List.mem_replicate]

theorem handle_payment_approved_ok (jl : String → Option PyVal) (data : PyVal) :
    ∃ b l, handle_payment_approved jl data = (Except.ok b, l) := by
  rw [handle_payment_approved_run]
  repeat' split
  all_goals exact ⟨_, _, rfl⟩

theorem handle_payment_refused_ok (data : PyVal) :
    ∃ b l, handle_payment_refused data = (Except.ok b, l) := by
  unfold handle_payment_refused ptry
  split
  · exact ⟨_, _, rfl⟩
  · exact ⟨_, _, rfl⟩

theorem handle_payment_refunded_ok (data : PyVal) :
    ∃ b l, handle_payment_refunded data = (Except.ok b, l) := by
  unfold handle_payment_refunded ptry
  split
  · exact ⟨_, _, rfl⟩
  · exact ⟨_, _, rfl⟩

theorem handle_payment_refused_noWarn (data : PyVal) :
    LogLevel.warning ∉ (handle_payment_refused data).2 := by
  unfold handle_payment_refused
  unfold ptry
  split
  · rename_i a l heq
    -- the inner computation's logs: case-bash every step
    revert heq
    simp only [bind_is_pbind, pbind, liftE, plog, plogMany, pure_is_pret,
      update_user_access_firebase]
    repeat' split
    all_goals (intro heq; rcases heq with ⟨rfl, rfl⟩ | heq <;>
      simp_all [List.mem_replicate])
  · rename_i e l heq
    revert heq
    simp only [bind_is_pbind, pbind, liftE, plog, plogMany, pure_is_pret,
      update_user_access_firebase]
    repeat' split
    all_goals (intro heq; rcases heq with ⟨rfl, rfl⟩ | heq <;>
      simp_all [List.mem_replicate])

theorem handle_payment_refunded_noWarn (data : PyVal) :
    LogLevel.warning ∉ (handle_payment_refunded data).2 := by
  unfold handle_payment_refunded
  unfold ptry
  split
  · rename_i a l heq
    revert heq
    simp only [bind_is_pbind, pbind, liftE, plog, plogMany, pure_is_pret,
      update_user_access_firebase, pyIndex, lookupField]
    repeat' split
    all_goals (intro heq; rcases heq with ⟨rfl, rfl⟩ | heq <;>
      simp_all [List.mem_replicate])
  · rename_i e l heq
    revert heq
    simp only [bind_is_pbind, pbind, liftE, plog, plogMany, pure_is_pret,
      update_user_access_firebase, pyIndex, lookupField]
    repeat' split
    all_goals (intro heq; rcases heq with ⟨rfl, rfl⟩ | heq <;>
      simp_all [List.mem_replicate])

theorem pbind_noWarn {α β : Type} (x : PyM α) (f : α → PyM β)
    (hx : LogLevel.warning ∉ x.2) (hf : ∀ a, LogLevel.warning ∉ (f a).2) :
    LogLevel.warning ∉ (pbind x f).2 := by
  unfold pbind
  split <;> simp_all [List.mem_append]

theorem webhook_dispatch_noWarn (jl : String → Option PyVal) (wd : PyVal) :
    LogLevel.warning ∉ (webhook_dispatch jl wd).2 := by
  unfold webhook_dispatch
  simp only [bind_is_pbind]
  refine pbind_noWarn _ _ (by simp [liftE]) ?_
  intro t
  refine pbind_noWarn _ _ (by simp [liftE]) ?_
  intro ev
  refine pbind_noWarn _ _ (by simp [liftE]) ?_
  intro d
  refine pbind_noWarn _ _ (by simp [plog]) ?_
  intro u
  split
  · refine pbind_noWarn _ _ (handle_payment_approved_noWarn jl d) ?_
    intro r
    refine pbind_noWarn _ _ (by simp [plog]) ?_
    intro v
    simp [pure_is_pret]
  · refine pbind_noWarn _ _ (handle_payment_refused_noWarn d) ?_
    intro r
    refine pbind_noWarn _ _ (by simp [plog]) ?_
    intro v
    simp [pure_is_pret]
  · refine pbind_noWarn _ _ (handle_payment_refunded_noWarn d) ?_
    intro r
    refine pbind_noWarn _ _ (by simp [plog]) ?_
    intro v
    simp [pure_is_pret]
  · refine pbind_noWarn _ _ (by simp [plog]) ?_
    intro u2
    refine pbind_noWarn _ _ (by simp [liftE]) ?_
    intro chk
    by_cases hc : chk.truthy = true
    · simp only [hc, if_true]
      refine pbind_noWarn _ _ (by simp [plog]) ?_
      intro u3
      refine pbind_noWarn _ _ (handle_payment_approved_noWarn jl d) ?_
      intro r
      refine pbind_noWarn _ _ (by simp [plog]) ?_
      intro v
      simp [pure_is_pret]
    · simp only [hc, if_false]
      simp [pure_is_pret]

theorem handle_cakto_webhook_default_run (payload : List Nat) (sig : String)
    (parse : List Nat → ParseResult) (jl : String → Option PyVal) :
    handle_cakto_webhook WEBHOOK_SECRET_DEFAULT payload sig parse jl =
      match parse payload with
      | ParseResult.jsonError =>
        (⟨400, .obj [("error", .str "JSON inválido")]⟩,
         [.info, .info, .info, .error])
      | ParseResult.otherError e =>
        (⟨500, .obj [("error", .str "Erro interno do servidor"), ("details", .str e)]⟩,
         [.info, .info, .info, .error])
      | ParseResult.ok wd =>
        match webhook_dispatch jl wd with
        | (Except.ok r, l) => (r, [.info, .info, .info, .info] ++ l)
        | (Except.error e, l) =>
          (⟨500, .obj [("error", .str "Erro interno do servidor"), ("details", .str e)]⟩,
           [.info, .info, .info, .info] ++ l ++ [.error]) := by
  unfold handle_cakto_webhook
  simp only [ne_eq, not_true_eq_false, if_false, ite_false, bind_is_pbind, pbind,
    plogMany, plog, pure_is_pret, praise]
  cases hp : parse payload with
  | jsonError => rfl
  | otherError e => rfl
  | ok wd =>
    rcases hd : webhook_dispatch jl wd with ⟨e1, l1⟩
    dsimp only
    rw [hd]
    cases e1 <;> rfl

theorem handle_cakto_webhook_default_noWarn (payload : List Nat) (sig : String)
    (parse : List Nat → ParseResult) (jl : String → Option PyVal) :
    LogLevel.warning ∉ (handle_cakto_webhook WEBHOOK_SECRET_DEFAULT payload sig parse jl).2 := by
  rw [handle_cakto_webhook_default_run]
  split
  · simp
  · simp
  · rename_i wd heq
    rcases hd : webhook_dispatch jl wd with ⟨e1, l1⟩
    have h := webhook_dispatch_noWarn jl wd
    rw [hd] at h
    cases e1 <;> simp_all [List.mem_append, List.mem_cons]

/-- C2 (amended): signature validation is skipped exactly when the webhook
secret equals the hardcoded default sentinel — the response is then
independent of the signature header, and no warning is ever logged by the
request pipeline while the bypass is active; with the empty-string secret
validation still runs (an empty signature yields 401); only the
configuration-level check (config.py), which runs at startup or on the
dev-only endpoint, emits a warning for the sentinel secret. -/
theorem webhook_secret_bypass_corrected (payload : List Nat) (sig sig' : String)
    (parse : List Nat → ParseResult) (jl : String → Option PyVal) :
    (handle_cakto_webhook WEBHOOK_SECRET_DEFAULT payload sig parse jl =
       handle_cakto_webhook WEBHOOK_SECRET_DEFAULT payload sig' parse jl)
  ∧ LogLevel.warning ∉ (handle_cakto_webhook WEBHOOK_SECRET_DEFAULT payload sig parse jl).2
  ∧ handle_cakto_webhook "" payload "" parse jl =
      (⟨401, .obj [("error", .str "Assinatura inválida")]⟩,
       [.info, .info, .info, .warning])
  ∧ config_validate_webhook_secret WEBHOOK_SECRET_DEFAULT = (false, [.warning]) := by
  refine ⟨?_, handle_cakto_webhook_default_noWarn payload sig parse jl, ?_, rfl⟩
  · rw [handle_cakto_webhook_default_run, handle_cakto_webhook_default_run]
  · rfl

/-- C2 counterexample: with the empty-string secret a request is rejected
with 401, so validation is not skipped as the claim states; and with the
sentinel secret a bypassed request logs no warning at all. -/
theorem webhook_secret_bypass_cex :
    (handle_cakto_webhook "" [123, 125] "" (fun _ => ParseResult.ok (.obj []))
        (fun _ => Option.none)).1.status = 401
  ∧ ((handle_cakto_webhook WEBHOOK_SECRET_DEFAULT [123, 125] ""
        (fun _ => ParseResult.ok (.obj [])) (fun _ => Option.none)).2.all
        (fun l => !(l == LogLevel.warning))) = true := ⟨rfl, rfl⟩

theorem lookupField_setField_ne (fs : List (String × PyVal)) (k k' : String)
    (v : PyVal) (h : ¬ k = k') :
    lookupField (setField fs k v) k' = lookupField fs k' := by
  induction fs with
  | nil =>
    simp only [setField, lookupField]
    rw [if_neg]
    simpa using h
  | cons p t ih =>
    rcases p with ⟨pk, pv⟩
    simp only [setField]
    by_cases hpk : (pk == k) = true
    · rw [if_pos hpk]
      have hk : pk = k := by simpa using hpk
      subst hk
      simp only [lookupField]
      rw [if_neg (by simpa using h), if_neg (by simpa using h)]
    · rw [if_neg hpk]
      simp only [lookupField]
      by_cases hpk' : (pk == k') = true
      · rw [if_pos hpk', if_pos hpk']
      · rw [if_neg hpk', if_neg hpk', ih]

theorem epure_eq_ok {α : Type} (a : α) : (pure a : Except String α) = Except.ok a := rfl

theorem ebind_ok {α β : Type} (a : α) (f : α → Except String β) :
    (Except.ok a >>= f : Except String β) = f a := rfl

theorem ebind_pure {α : Type} (x : Except String α) :
    (x >>= pure : Except String α) = x := by cases x <;> rfl

theorem ebind_ok_right {α : Type} (x : Except String α) :
    (x >>= fun a => (Except.ok a : Except String α)) = x := by cases x <;> rfl

theorem strategy_core_run (regid r1 r2 r3 : PyVal) (b1 b2 b3 : Bool)
    (h1 : pyIndex r1 "success" = Except.ok (.bool b1))
    (h2 : pyIndex r2 "success" = Except.ok (.bool b2))
    (h3 : pyIndex r3 "success" = Except.ok (.bool b3)) :
    strategy_core regid r1 r2 r3 =
      if regid.truthy && b1 then pySet r1 "identification_method" (.str "registration_id")
      else if b2 then pySet r2 "identification_method" (.str "email")
      else if b3 then pySet r3 "identification_method" (.str "basic_account")
      else Except.ok (.obj [("success", .bool false),
        ("error", .str strategy_generic_error)]) := by
  unfold strategy_core
  cases hrt : regid.truthy <;> cases b1 <;> cases b2 <;> cases b3 <;>
    simp [h1, h2, h3, hrt, epure_eq_ok, ebind_ok, ebind_pure, ebind_ok_right]

theorem pyIndex_ok_obj (r : PyVal) (k : String) (v : PyVal)
    (h : pyIndex r k = Except.ok v) :
    ∃ fs, r = .obj fs ∧ lookupField fs k = some v := by
  cases r <;> simp [pyIndex] at h
  rename_i fs
  cases hl : lookupField fs k with
  | none => rw [hl] at h; simp at h
  | some x => rw [hl] at h; simp at h; exact ⟨fs, rfl, by rw [hl, h]⟩

theorem strategy_live_matches_core (e r n t a : PyVal) :
    (create_account_with_identification_strategy e r n t a).1 =
      strategy_core r
        (.obj [("success", .bool true), ("message", .str ("Conta criada para " ++
          pyStr e ++ " usando registration_id " ++ pyStr r))])
        (.obj [("success", .bool true), ("message", .str ("Conta criada para " ++
          pyStr e ++ " usando email como identificação"))])
        (.obj [("success", .bool true),
          ("message", .str ("Conta básica criada para " ++ pyStr e))]) := by
  rw [strategy_live_run]
  unfold strategy_core
  cases hr : r.truthy <;>
    simp [hr, pySet, setField, lookupField, pyIndex, epure_eq_ok, ebind_ok,
      ebind_pure, ebind_ok_right]

/-- C1 (amended): the reconciliation combinator consults by-registration-id
only when an identifier was extracted, then by-email, then basic-account
creation, in order, returning the first success tagged with its
identification method; the overall result is a success exactly when some
consulted strategy succeeds; when all consulted strategies fail, the result
carries the fixed generic error message `strategy_generic_error`, not the
last strategy's error. -/
theorem strategy_combinator_spec (regid r1 r2 r3 : PyVal) (b1 b2 b3 : Bool)
    (h1 : pyIndex r1 "success" = Except.ok (.bool b1))
    (h2 : pyIndex r2 "success" = Except.ok (.bool b2))
    (h3 : pyIndex r3 "success" = Except.ok (.bool b3)) :
    (strategy_core regid r1 r2 r3 =
      if regid.truthy && b1 then pySet r1 "identification_method" (.str "registration_id")
      else if b2 then pySet r2 "identification_method" (.str "email")
      else if b3 then pySet r3 "identification_method" (.str "basic_account")
      else Except.ok (.obj [("success", .bool false),
        ("error", .str strategy_generic_error)]))
  ∧ (∃ res, strategy_core regid r1 r2 r3 = Except.ok res ∧
      pyIndex res "success" = Except.ok (.bool (regid.truthy && b1 || b2 || b3)))
  ∧ ((regid.truthy && b1) = false → b2 = false → b3 = false →
      strategy_core regid r1 r2 r3 =
        Except.ok (.obj [("success", .bool false),
          ("error", .str strategy_generic_error)])) := by
  rcases pyIndex_ok_obj _ _ _ h1 with ⟨f1, rfl, hl1⟩
  rcases pyIndex_ok_obj _ _ _ h2 with ⟨f2, rfl, hl2⟩
  rcases pyIndex_ok_obj _ _ _ h3 with ⟨f3, rfl, hl3⟩
  have hrun := strategy_core_run regid _ _ _ _ _ _ h1 h2 h3
  refine ⟨hrun, ?_, ?_⟩
  · rw [hrun]
    by_cases c1 : (regid.truthy && b1) = true
    · rw [if_pos c1]
      have hb1 : b1 = true := (Bool.and_eq_true _ _ |>.mp c1).2
      have hrt : regid.truthy = true := (Bool.and_eq_true _ _ |>.mp c1).1
      refine ⟨_, rfl, ?_⟩
      simp only [pyIndex,
        lookupField_setField_ne f1 "identification_method" "success"
          (PyVal.str "registration_id") (by decide), hl1]
      simp [hrt, hb1]
    · rw [if_neg c1]
      by_cases c2 : b2 = true
      · rw [if_pos c2]
        refine ⟨_, rfl, ?_⟩
        simp only [pyIndex,
          lookupField_setField_ne f2 "identification_method" "success"
            (PyVal.str "email") (by decide), hl2]
        simp [c2]
      · rw [if_neg c2]
        by_cases c3 : b3 = true
        · rw [if_pos c3]
          refine ⟨_, rfl, ?_⟩
          simp only [pyIndex,
            lookupField_setField_ne f3 "identification_method" "success"
              (PyVal.str "basic_account") (by decide), hl3]
          simp [Bool.not_eq_true] at c1 c2
          simp [c1, c2, c3]
        · rw [if_neg c3]
          refine ⟨_, rfl, ?_⟩
          simp [Bool.not_eq_true] at c1 c2 c3
          simp [pyIndex, lookupField, c1, c2, c3]
          exact c1
  · intro c1 c2 c3
    rw [hrun, if_neg (by simp [c1]), if_neg (by simp [c2]), if_neg (by simp [c3])]

/-- C1 counterexample: with three failing strategy results whose last error
is "boom", the combinator returns the fixed generic message, so the overall
result does not carry the last strategy's error as the claim states. -/
theorem strategy_combinator_cex :
    strategy_core (.str "R1")
        (.obj [("success", .bool false), ("error", .str "erro 1")])
        (.obj [("success", .bool false), ("error", .str "erro 2")])
        (.obj [("success", .bool false), ("error", .str "boom")]) =
      Except.ok (.obj [("success", .bool false), ("error", .str strategy_generic_error)])
  ∧ pyIndex (.obj [("success", .bool false), ("error", .str "boom")]) "error" =
      Except.ok (.str "boom")
  ∧ strategy_generic_error ≠ "boom" :=
  ⟨rfl, rfl, by decide⟩

/-- C1 witness: the amended theorem applied at concrete failing strategy
results. -/
theorem strategy_combinator_spec_witness :
    strategy_core (.str "R1")
        (.obj [("success", .bool false)])
        (.obj [("success", .bool false)])
        (.obj [("success", .bool false)]) =
      Except.ok (.obj [("success", .bool false), ("error", .str strategy_generic_error)]) :=
  (strategy_combinator_spec (.str "R1")
    (.obj [("success", .bool false)]) (.obj [("success", .bool false)])
    (.obj [("success", .bool false)]) false false false rfl rfl rfl).2.2 rfl rfl rfl

/-- C4 witness: the amended theorem applied at one concrete string of each
alias list. -/
theorem classify_event_spec_witness :
    classify_event (.str "payment.approved") = EventClass.approved ∧
    classify_event (.str "payment_refused") = EventClass.refused ∧
    classify_event (.str "refunded") = EventClass.refunded :=
  ⟨(classify_event_spec "payment.approved").1 (by decide),
   (classify_event_spec "payment_refused").2.1 (by decide),
   (classify_event_spec "refunded").2.2.1 (by decide)⟩

/-- C4 counterexample: "purchase_approved" is not in the Approved alias
set; it classifies as unknown, and a webhook with that event type and no
customer data receives the unhandled-event acknowledgement rather than
Approved processing. -/
theorem classify_event_cex :
    "purchase_approved" ∉ approved_events
  ∧ classify_event (.str "purchase_approved") = EventClass.unknown
  ∧ (handle_cakto_webhook WEBHOOK_SECRET_DEFAULT [] ""
      (fun _ => ParseResult.ok (.obj [("event", .str "purchase_approved")]))
      (fun _ => Option.none)).1 =
      ⟨200, .obj [("message", .str "Evento não tratado"),
        ("event", .str "purchase_approved")]⟩ :=
  ⟨by decide, rfl, rfl⟩

/-- C8 (amended): for every payload object without a `user_data` key, if
the extraction chain returns a falsy value then that value is null; and a
probed location holding an unparsable JSON-encoded string is treated as
absent without propagating an error.  (When `user_data` is present with a
falsy non-null value, Python's `or`/`and` chain returns that value instead
of null — see the counterexample.) -/
theorem extract_email_all_absent (jl : String → Option PyVal)
    (fs : List (String × PyVal)) (v : PyVal)
    (hud : lookupField fs "user_data" = Option.none)
    (hok : extract_customer_email jl (.obj fs) = Except.ok v)
    (hfalsy : v.truthy = false) :
    v = PyVal.none
  ∧ (∀ s key, jl s = Option.none → extract_from_json jl (.str s) key =
      Except.ok PyVal.none) := by
  constructor
  · revert hok
    unfold extract_customer_email
    simp only [ebind_ok, epure_eq_ok, pyGet, pyOr, pyAnd, hud, Option.getD]
    repeat' split
    all_goals intro hok
    all_goals (try simp only [ebind_ok, epure_eq_ok] at hok)
    all_goals (try simp only [Bind.bind, Except.bind] at hok)
    all_goals (repeat' split at hok)
    all_goals simp_all
  · intro s key hjl
    unfold extract_from_json
    by_cases hs : (PyVal.str s).truthy = true
    · rw [if_pos hs]
      simp [hjl]
    · rw [if_neg hs]

/-- C8 counterexample: on the payload with user_data mapped to the empty
string — where no probed location holds a non-null, non-empty value — the
extraction returns the empty string, not null. -/
theorem extract_email_cex :
    extract_customer_email (fun _ => Option.none) (.obj [("user_data", .str "")]) =
      Except.ok (.str "")
  ∧ PyVal.str "" ≠ PyVal.none :=
  ⟨rfl, fun h => PyVal.noConfusion h⟩

/-- C8 witness: the amended theorem applied at a concrete payload,
projecting the unparsable-JSON-is-absent part. -/
theorem extract_email_all_absent_witness :
    extract_from_json (fun _ => Option.none) (.str "not json") "email" =
      Except.ok PyVal.none :=
  (extract_email_all_absent (fun _ => Option.none) [("amount", .num 5)] PyVal.none
    rfl rfl rfl).2 "not json" "email" rfl

/-- C5 (amended): for a payload whose event-type string is in none of the
alias sets, the event is processed as Approved exactly when the inline
check of webhook.py line 78 — `data.customer.email` or `data.email` — is
truthy, not when the full Field Extractor finds an email; otherwise the
sender receives HTTP 200 with a body carrying the raw event-type string. -/
theorem unknown_event_dispatch (payload : List Nat) (sig : String)
    (parse : List Nat → ParseResult) (jl : String → Option PyVal)
    (fs : List (String × PyVal)) (ev : String) (chk : PyVal)
    (hparse : parse payload = ParseResult.ok (.obj fs))
    (hev : lookupField fs "event" = some (.str ev))
    (hunk : classify_event (.str ev) = EventClass.unknown)
    (hchk : unknown_event_email_check ((lookupField fs "data").getD (.obj fs)) =
      Except.ok chk) :
    (chk.truthy = false →
       handle_cakto_webhook WEBHOOK_SECRET_DEFAULT payload sig parse jl =
         (⟨200, .obj [("message", .str "Evento não tratado"), ("event", .str ev)]⟩,
          [.info, .info, .info, .info, .info, .info]))
  ∧ (chk.truthy = true →
       ∃ body logs, handle_cakto_webhook WEBHOOK_SECRET_DEFAULT payload sig parse jl =
         (⟨200, body⟩, logs) ∧
         (handle_payment_approved jl ((lookupField fs "data").getD (.obj fs))).1 =
           Except.ok body) := by
  have hrun := handle_cakto_webhook_default_run payload sig parse jl
  rw [hparse] at hrun
  unfold webhook_dispatch at hrun
  simp only [bind_is_pbind, pbind, liftE, pyGet, hev, plog, pure_is_pret,
    Option.getD_some, hunk, hchk] at hrun
  constructor
  · intro hcf
    simp only [hcf, Bool.false_eq_true, if_false, ite_false] at hrun
    exact hrun
  · intro hct
    obtain ⟨b, l, hb⟩ := handle_payment_approved_ok jl ((lookupField fs "data").getD (.obj fs))
    simp only [hct, if_true, ite_true, hb] at hrun
    exact ⟨b, _, hrun, by rw [hb]⟩

/-- C5 counterexample: an unknown event whose payload carries the customer
email only under buyer_email — a location the Field Extractor probes
successfully — still receives the unhandled-event acknowledgement instead
of Approved processing. -/
theorem unknown_event_dispatch_cex :
    (handle_cakto_webhook WEBHOOK_SECRET_DEFAULT [] ""
        (fun _ => ParseResult.ok (.obj [("event", .str "some.event"),
          ("buyer_email", .str "a@x.com")])) (fun _ => Option.none)).1 =
      ⟨200, .obj [("message", .str "Evento não tratado"), ("event", .str "some.event")]⟩
  ∧ extract_customer_email (fun _ => Option.none)
      (.obj [("event", .str "some.event"), ("buyer_email", .str "a@x.com")]) =
      Except.ok (.str "a@x.com")
  ∧ PyVal.truthy (.str "a@x.com") = true := ⟨rfl, rfl, rfl⟩

/-- C5 witness: the amended theorem applied at a concrete unknown-event
payload without the inline-checked email locations. -/
theorem unknown_event_dispatch_witness :
    handle_cakto_webhook WEBHOOK_SECRET_DEFAULT [] ""
      (fun _ => ParseResult.ok (.obj [("event", .str "some.event"),
        ("buyer_email", .str "a@x.com")])) (fun _ => Option.none) =
      (⟨200, .obj [("message", .str "Evento não tratado"), ("event", .str "some.event")]⟩,
       [.info, .info, .info, .info, .info, .info]) :=
  (unknown_event_dispatch [] "" (fun _ => ParseResult.ok (.obj [("event", .str "some.event"),
      ("buyer_email", .str "a@x.com")])) (fun _ => Option.none)
    [("event", .str "some.event"), ("buyer_email", .str "a@x.com")]
    "some.event" PyVal.none rfl rfl rfl rfl).1 rfl

/-- C10: a well-formed JSON object payload with neither an event key nor a
type key is treated as payment.approved and dispatched to approved-payment
reconciliation unconditionally — the response is always 200 with the
handle_payment_approved result as its body, never the unhandled-event
acknowledgement — and when no customer email is extractable the body is an
error object, still with status 200. -/
theorem default_event_type_dispatch (payload : List Nat) (sig : String)
    (parse : List Nat → ParseResult) (jl : String → Option PyVal)
    (fs : List (String × PyVal))
    (hparse : parse payload = ParseResult.ok (.obj fs))
    (hev : lookupField fs "event" = Option.none)
    (hty : lookupField fs "type" = Option.none) :
    ∃ body logs,
      handle_cakto_webhook WEBHOOK_SECRET_DEFAULT payload sig parse jl =
        (⟨200, body⟩, logs)
      ∧ (handle_payment_approved jl ((lookupField fs "data").getD (.obj fs))).1 =
          Except.ok body
      ∧ ((match extract_customer_email jl ((lookupField fs "data").getD (.obj fs)) with
          | Except.ok v => v.truthy = false
          | Except.error _ => True) →
          ∃ msg rest, body = .obj (("error", .str msg) :: rest)) := by
  have hrun := handle_cakto_webhook_default_run payload sig parse jl
  rw [hparse] at hrun
  unfold webhook_dispatch at hrun
  have hc : classify_event (.str "payment.approved") = EventClass.approved := rfl
  obtain ⟨b, l, hb⟩ := handle_payment_approved_ok jl ((lookupField fs "data").getD (.obj fs))
  simp only [bind_is_pbind, pbind, liftE, pyGet, hev, hty, plog, pure_is_pret,
    Option.getD_none, hc, hb] at hrun
  refine ⟨b, _, hrun, by rw [hb], ?_⟩
  intro hcond
  rw [handle_payment_approved_run] at hb
  split at hb
  all_goals (repeat' split at hb)
  all_goals (injection hb with hb1 hb2)
  all_goals (injection hb1 with hb1)
  all_goals (subst hb1)
  all_goals (first | exact ⟨_, _, rfl⟩ | simp_all)

/-- C9: posting an email and name to /simulate-payment produces the same
reconciliation result as delivering a real Approved webhook through the
full pipeline whose payload carries that email in customer.email and that
name in customer.name; both pipelines embed their handle_payment_approved
result in a 200 response. -/
theorem simulate_matches_webhook (jl : String → Option PyVal) (E N ts : String) :
    (reconcile_approved_result jl (sim_payment_data (.str E) (.str N) ts)).1 =
      (reconcile_approved_result jl
        (.obj [("customer", .obj [("email", .str E), ("name", .str N)])])).1
  ∧ (∀ payload sig parse,
      parse payload = ParseResult.ok (.obj [("event", .str "payment.approved"),
        ("data", .obj [("customer", .obj [("email", .str E), ("name", .str N)])])]) →
      ∃ body logs,
        handle_cakto_webhook WEBHOOK_SECRET_DEFAULT payload sig parse jl =
          (⟨200, body⟩, logs) ∧
        (handle_payment_approved jl
          (.obj [("customer", .obj [("email", .str E), ("name", .str N)])])).1 =
          Except.ok body)
  ∧ (∀ reqfs, lookupField reqfs "email" = some (.str E) →
      lookupField reqfs "name" = some (.str N) →
      ∃ r logs, simulate_payment jl (.obj reqfs) ts =
        (⟨200, .obj [("message", .str "Pagamento simulado"), ("result", r),
          ("test_data", sim_payment_data (.str E) (.str N) ts)]⟩, logs) ∧
        (handle_payment_approved jl (sim_payment_data (.str E) (.str N) ts)).1 =
          Except.ok r) := by
  refine ⟨?_, ?_, ?_⟩
  · have hts : ¬ ("TEST_" ++ ts = "") := by
      intro h
      have h2 : "TEST_".data ++ ts.data = [] := congrArg String.data h
      exact absurd (List.append_eq_nil.mp h2).1 (by decide)
    have h97 : (PyVal.num 97).truthy = true := by decide
    by_cases hE : E = "" <;> by_cases hN : N = "" <;>
      simp [reconcile_approved_result, extract_customer_email, extract_customer_name,
        extract_transaction_id, extract_amount, extract_product_id,
        extract_registration_id, extract_from_json, sim_payment_data, pyGet,
        lookupField, pyOr, pyAnd, bind_is_pbind, pbind, liftE, pure_is_pret,
        epure_eq_ok, ebind_ok, hE, hN, hts, h97, strategy_live_run]
  · intro payload sig parse hparse
    have hrun := handle_cakto_webhook_default_run payload sig parse jl
    rw [hparse] at hrun
    unfold webhook_dispatch at hrun
    have hc : classify_event (.str "payment.approved") = EventClass.approved := rfl
    obtain ⟨b, l, hb⟩ := handle_payment_approved_ok jl
      (.obj [("customer", .obj [("email", .str E), ("name", .str N)])])
    have l1 : lookupField [("event", PyVal.str "payment.approved"),
        ("data", PyVal.obj [("customer", PyVal.obj [("email", PyVal.str E),
          ("name", PyVal.str N)])])] "event" = some (.str "payment.approved") := rfl
    have l2 : lookupField [("event", PyVal.str "payment.approved"),
        ("data", PyVal.obj [("customer", PyVal.obj [("email", PyVal.str E),
          ("name", PyVal.str N)])])] "type" = Option.none := rfl
    have l3 : lookupField [("event", PyVal.str "payment.approved"),
        ("data", PyVal.obj [("customer", PyVal.obj [("email", PyVal.str E),
          ("name", PyVal.str N)])])] "data" = some (.obj [("customer",
            PyVal.obj [("email", PyVal.str E), ("name", PyVal.str N)])]) := rfl
    simp only [bind_is_pbind, pbind, liftE, pyGet, l1, l2, l3, plog, pure_is_pret,
      Option.getD_some, Option.getD_none, hc, hb] at hrun
    exact ⟨b, _, hrun, by rw [hb]⟩
  · intro reqfs hre hrn
    obtain ⟨b, l, hb⟩ := handle_payment_approved_ok jl
      (sim_payment_data (.str E) (.str N) ts)
    unfold simulate_payment
    simp only [bind_is_pbind, pbind, liftE, pyGet, hre, hrn, Option.getD_some,
      pure_is_pret, hb]
    exact ⟨b, _, rfl, rfl⟩

/-- C9 witness: the webhook-pipeline conjunct applied at a concrete parse
function and payload. -/
theorem simulate_matches_webhook_witness :
    ∃ body logs,
      handle_cakto_webhook WEBHOOK_SECRET_DEFAULT [] "x"
        (fun _ => ParseResult.ok (.obj [("event", .str "payment.approved"),
          ("data", .obj [("customer", .obj [("email", .str "t@test.com"),
            ("name", .str "Nome")])])])) (fun _ => Option.none) =
        (⟨200, body⟩, logs) ∧
      (handle_payment_approved (fun _ => Option.none)
        (.obj [("customer", .obj [("email", .str "t@test.com"),
          ("name", .str "Nome")])])).1 = Except.ok body :=
  (simulate_matches_webhook (fun _ => Option.none) "t@test.com" "Nome" "TS").2.1
    [] "x" _ rfl

/-- C6: over the directory-service model, a by-id lookup that finds a
valid pending registration whose stored email differs from the extracted
customer email is a hard failure that leaves the store unchanged; the
by-email lookup also fails when no pending record has the extracted email;
reconciliation then completes via basic-account creation with
identification method "basic_account". -/
theorem pending_mismatch_falls_to_basic (st : FSState) (r : PendingRegistration)
    (em nm : String)
    (hfind : st.pending.find? (fun p => p.id == "R1") = some r)
    (hvalid : st.now ≤ r.expiresAt)
    (hmail : ¬ r.email = em)
    (hnone : ∀ p ∈ st.pending, ¬ p.email = em) :
    (fs_create_account_by_id "R1" em st).1.success = false
  ∧ (fs_create_account_by_id "R1" em st).2 = st
  ∧ (fs_create_account_by_email em st).1.success = false
  ∧ (fs_identification_strategy em (some "R1") nm st).1 =
      { success := true, method := some "basic_account", error := Option.none } := by
  have hid : fs_create_account_by_id "R1" em st =
      ({ success := false,
         error := some "Email não confere com o registro pendente" }, st) := by
    unfold fs_create_account_by_id
    rw [hfind]
    dsimp only
    rw [if_pos hmail]
  have hcands : st.pending.filter
      (fun p => p.email == em && st.now < p.expiresAt) = [] := by
    rw [List.filter_eq_nil_iff]
    intro p hp
    simp [hnone p hp]
  have hemail : fs_create_account_by_email em st =
      ({ success := false,
         error := some "Nenhum registro pendente encontrado" }, st) := by
    unfold fs_create_account_by_email
    rw [hcands]
    rfl
  refine ⟨by rw [hid], by rw [hid], by rw [hemail], ?_⟩
  unfold fs_identification_strategy
  dsimp only
  rw [hid]
  unfold fs_strategy_after_id
  dsimp only
  rw [hemail]
  dsimp only
  unfold fs_create_basic_account
  cases hident : st.identities.find? (fun i => i.email == em) <;> simp [hident]

/-- C6 witness: the theorem applied at a concrete store holding the record
R1 for a@x.com while the event carries b@y.com. -/
theorem pending_mismatch_falls_to_basic_witness :
    (fs_identification_strategy "b@y.com" (some "R1") "Nome" sample_state).1 =
      { success := true, method := some "basic_account", error := Option.none } :=
  (pending_mismatch_falls_to_basic sample_state sample_pending
    "b@y.com" "Nome" rfl (by decide) (by decide) (by decide)).2.2.2

theorem basic_tx_chain_obj_ok (dfs : List (String × PyVal)) :
    ∃ v, basic_tx_chain (.obj dfs) = Except.ok v := by
  unfold basic_tx_chain
  simp only [pyGet, pyOr, ebind_ok, epure_eq_ok, Bind.bind, Except.bind]
  (repeat' split) <;> exact ⟨_, rfl⟩

/-- C7: over the directory-service model, a Refunded event for an email
with an existing identity disables the identity and updates the
UserAccount to accessStatus "refunded" with hasFullAccess and isActive
false; when no identity exists, the result is a reported failure and the
refund handler returns an error body; and the live webhook handler wraps
every refunded-event dispatch result in an HTTP 200 response. -/
theorem refund_revokes_access (st : FSState) (em : String) (data : PyVal)
    (dfs : List (String × PyVal))
    (hdata : data = .obj dfs)
    (hchain : basic_email_chain data = Except.ok (.str em)) :
    ((∃ i, st.identities.find? (fun j => j.email == em) = some i) →
       (fs_update_user_access_refunded em st).1.success = true
     ∧ (∀ u ∈ (fs_update_user_access_refunded em st).2.users, u.email = em →
          u.accessStatus = "refunded" ∧ u.hasFullAccess = false ∧ u.isActive = false)
     ∧ (∀ j ∈ (fs_update_user_access_refunded em st).2.identities, j.email = em →
          j.disabled = true))
  ∧ (st.identities.find? (fun j => j.email == em) = Option.none →
       fs_update_user_access_refunded em st =
         ({ success := false, error := some "Usuário não encontrado" }, st)
     ∧ (fs_handle_payment_refunded data st).1 =
         .obj [("error", .str "Erro ao revogar acesso"),
               ("details", .str "Usuário não encontrado")]
     ∧ (fs_handle_payment_refunded data st).2 = st)
  ∧ (∀ payload sig parse jl fs2 ev,
       parse payload = ParseResult.ok (.obj fs2) →
       lookupField fs2 "event" = some ev →
       classify_event ev = EventClass.refunded →
       (handle_cakto_webhook WEBHOOK_SECRET_DEFAULT payload sig parse jl).1.status = 200) := by
  refine ⟨?_, ?_, ?_⟩
  · rintro ⟨i, hi⟩
    unfold fs_update_user_access_refunded
    rw [hi]
    refine ⟨rfl, ?_, ?_⟩
    · intro u hu hue
      dsimp only at hu
      rcases List.mem_map.mp hu with ⟨u0, hu0, rfl⟩
      by_cases hc : (u0.email == em) = true
      · simp [hc]
      · rw [if_neg hc] at hue ⊢
        exact absurd (by simpa using hue) (by simpa using hc)
    · intro j hj hje
      dsimp only at hj
      rcases List.mem_map.mp hj with ⟨j0, hj0, rfl⟩
      by_cases hc : (j0.email == em) = true
      · simp [hc]
      · rw [if_neg hc] at hje ⊢
        exact absurd (by simpa using hje) (by simpa using hc)
  · intro hn
    have hupd : fs_update_user_access_refunded em st =
        ({ success := false, error := some "Usuário não encontrado" }, st) := by
      unfold fs_update_user_access_refunded
      rw [hn]
    subst hdata
    obtain ⟨tx, htx⟩ := basic_tx_chain_obj_ok dfs
    refine ⟨hupd, ?_, ?_⟩ <;>
    · unfold fs_handle_payment_refunded
      simp only [bind_is_pbind, liftE, pyGet, pyOr, hchain, htx, ebind_ok, epure_eq_ok,
        Bind.bind, Except.bind]
      rw [show pyStr (PyVal.str em) = em from rfl, hupd]
      by_cases h1 : ((lookupField dfs "refund_amount").getD PyVal.none).truthy = true <;>
        by_cases h2 : ((lookupField dfs "amount").getD PyVal.none).truthy = true <;>
          simp [h1, h2]
  · intro payload sig parse jl fs2 ev hparse hev hclass
    have hrun := handle_cakto_webhook_default_run payload sig parse jl
    rw [hparse] at hrun
    unfold webhook_dispatch at hrun
    obtain ⟨b, l, hb⟩ := handle_payment_refunded_ok ((lookupField fs2 "data").getD (.obj fs2))
    simp only [bind_is_pbind, pbind, liftE, pyGet, hev, plog, pure_is_pret,
      Option.getD_some, hclass, hb] at hrun
    rw [hrun]

/-- C7 witness: the no-identity conjunct applied at a concrete empty store
and payload. -/
theorem refund_revokes_access_witness :
    fs_update_user_access_refunded "a@x.com" sample_refund_state =
      ({ success := false, error := some "Usuário não encontrado" }, sample_refund_state)
  ∧ (fs_handle_payment_refunded (.obj [("email", .str "a@x.com")])
      sample_refund_state).1 =
      .obj [("error", .str "Erro ao revogar acesso"),
            ("details", .str "Usuário não encontrado")]
  ∧ (fs_handle_payment_refunded (.obj [("email", .str "a@x.com")])
      sample_refund_state).2 = sample_refund_state :=
  (refund_revokes_access sample_refund_state "a@x.com"
    (.obj [("email", .str "a@x.com")]) [("email", .str "a@x.com")] rfl rfl).2.1 rfl

/-- C10 witness: the theorem applied at a concrete payload with no event
or type key and no extractable email. -/
theorem default_event_type_dispatch_witness :
    ∃ body logs,
      handle_cakto_webhook WEBHOOK_SECRET_DEFAULT [] ""
        (fun _ => ParseResult.ok (.obj [("amount", .num 5)]))
        (fun _ => Option.none) = (⟨200, body⟩, logs)
      ∧ (handle_payment_approved (fun _ => Option.none)
          ((lookupField [("amount", PyVal.num 5)] "data").getD
            (.obj [("amount", .num 5)]))).1 = Except.ok body
      ∧ ((match extract_customer_email (fun _ => Option.none)
            ((lookupField [("amount", PyVal.num 5)] "data").getD
              (.obj [("amount", .num 5)])) with
          | Except.ok v => v.truthy = false
          | Except.error _ => True) →
          ∃ msg rest, body = .obj (("error", .str msg) :: rest)) :=
  default_event_type_dispatch [] "" (fun _ => ParseResult.ok (.obj [("amount", .num 5)]))
    (fun _ => Option.none) [("amount", PyVal.num 5)] rfl rfl rfl
